import Mathlib

/-!
Shallow embedding of the scope-tracking diagnostics logger of
`src/ulogger.hpp` (`utils::ScopeLogger` plus the rotation helper shared in
shape with `utils::Log`).  Files are modelled as lists of newline-terminated
lines together with their byte size; the process-wide static state of
`ScopeLogger` (`count_`, `fout_`, `initialized_`, `crashedLastTime_`,
`crashChecked_`) becomes an explicit state record threaded through the
operations.  Timestamps are parameters: `dateTime()` is an environment read
that the claims treat as opaque.
-/

namespace ULog

/-- A file on disk: its newline-terminated lines and its byte size
(`std::filesystem::file_size`).  Size is carried explicitly because the
rotation check consults only the size while `lastLine` consults only the
text. -/
structure DFile where
  lines : List String
  size : Nat
deriving DecidableEq

/-- The slice of the file system the diagnostics subsystem touches: the file
at the diagnostics path (`diagnostics.log`), the backup at that path plus
`".old"`, and whether opening the diagnostics path for append succeeds
(a fixed property of the path, standing for permissions etc.). -/
structure FS where
  diag : Option DFile
  bak : Option DFile
  openable : Bool
deriving DecidableEq

/-- The static data members of `utils::ScopeLogger` together with the file
system: `count_` (the shared open-scope counter), whether `fout_` is an open,
good stream, `initialized_`, `crashedLastTime_`, `crashChecked_`. -/
structure GState where
  fs : FS
  fileOpen : Bool
  count : Int
  initialized : Bool
  crashedLastTime : Bool
  crashChecked : Bool
deriving DecidableEq

/-- `ScopeLogger::rotateIfTooLarge`: if the file exists and
`maxSize < file_size(fname)`, remove any existing backup and rename the file
to the backup name. -/
def rotateIfTooLarge (fs : FS) (maxSize : Nat) : FS :=
  match fs.diag with
  | some f => if maxSize < f.size then { fs with diag := none, bak := some f } else fs
  | none => fs

/-- `fout_.open(fname, std::ios::app)`: when the path is openable the open
succeeds, creating an empty file if none exists; otherwise it fails and the
file system is untouched.  Returns the file system and whether the stream is
now open and good. -/
def openAppend (fs : FS) : FS × Bool :=
  if fs.openable then
    match fs.diag with
    | some _ => (fs, true)
    | none => ({ fs with diag := some ⟨[], 0⟩ }, true)
  else (fs, false)

/-- `fout_ << l << '\n'` on an open stream: append one line to the
diagnostics file, growing its size by the line's length plus the newline. -/
def appendDiag (fs : FS) (l : String) : FS :=
  match fs.diag with
  | some f => { fs with diag := some ⟨f.lines ++ [l], f.size + l.length + 1⟩ }
  | none => fs

/-- `ScopeLogger::lastLine`: the last line read by repeated `getline`, the
empty string when the file cannot be opened or has no lines. -/
def lastLineOf : Option DFile → String
  | none => ""
  | some f => f.lines.getLastD ""

/-- The characters `std::isspace` accepts in the default locale, skipped by
`std::stoi` before the number. -/
def isSpaceCh (c : Char) : Bool :=
  c = ' ' || c = '\t' || c = '\n' || c = '\x0b' || c = '\x0c' || c = '\r'

/-- Decimal digit test for `std::stoi`. -/
def isDigitCh (c : Char) : Bool :=
  '0' ≤ c && c ≤ '9'

/-- Value of a digit run, most significant first. -/
def digitsToNat (cs : List Char) : Nat :=
  cs.foldl (fun a c => 10 * a + (c.toNat - '0'.toNat)) 0

/-- `std::stoi` wrapped in the surrounding `try`/`catch`: skip leading
whitespace, consume an optional sign then a maximal digit run, and fail
(`none`, i.e. the catch path) if there is no digit or the value is outside
`int` range. Trailing non-digit text is ignored, as `stoi` ignores it. -/
def stoi? (s : String) : Option Int :=
  let cs := s.data.dropWhile isSpaceCh
  let sgn : Bool × List Char :=
    match cs with
    | '-' :: r => (true, r)
    | '+' :: r => (false, r)
    | _ => (false, cs)
  let ds := sgn.2.takeWhile isDigitCh
  if ds.isEmpty then none
  else
    let v : Int := if sgn.1 then -(digitsToNat ds : Int) else (digitsToNat ds : Int)
    if v < -(2 ^ 31) || (2 ^ 31 - 1 : Int) < v then none else some v

/-- `line.rfind('|')` followed by `line.substr(pos + 1)`: the characters after
the last `'|'`, or `none` when the line holds no `'|'`. -/
def afterLastBar : List Char → Option (List Char)
  | [] => none
  | c :: r =>
    match afterLastBar r with
    | some t => some t
    | none => if c = '|' then some r else none

/-- `ScopeLogger::detectPreviousCrash`, instrumented: besides the result and
the updated state it reports which line the parse examined (`none` when the
check was already cached or the file did not exist). -/
def detectPreviousCrashE (st : GState) : Bool × GState × Option String :=
  if st.crashChecked then (st.crashedLastTime, st, none)
  else
    let st1 := { st with crashChecked := true }
    match st1.fs.diag with
    | none => (false, st1, none)
    | some f =>
      let line := f.lines.getLastD ""
      match afterLastBar line.data with
      | none => (false, st1, some line)
      | some tail =>
        match stoi? (String.mk tail) with
        | some n => (decide (0 < n), { st1 with crashedLastTime := decide (0 < n) }, some line)
        | none => (false, { st1 with crashedLastTime := false }, some line)

/-- `ScopeLogger::detectPreviousCrash` proper. -/
def detectPreviousCrash (st : GState) : Bool × GState :=
  ((detectPreviousCrashE st).1, (detectPreviousCrashE st).2.1)

/-- The diagnostics rotation threshold `2ull * 1024 * 1024`. -/
def diagThreshold : Nat := 2 * 1024 * 1024

/-- The `Log` (general `output.log`) rotation threshold `5 * 1024 * 1024`. -/
def logThreshold : Nat := 5 * 1024 * 1024

/-- The sentinel written when a previous crash is detected. -/
def crashMarker : String := "## CRASH POINT ##"

/-- `ScopeLogger::ensureFileOpen`, instrumented with the line the crash
detection examined (`none` on the already-initialized paths). On the first
call it rotates, opens for append, and runs crash detection, writing the
marker if the detection fired and the stream is good; afterwards it only
reopens a closed stream. -/
def ensureFileOpenE (st : GState) : GState × Option String :=
  if !st.initialized then
    let fs1 := rotateIfTooLarge st.fs diagThreshold
    let p := openAppend fs1
    let st1 : GState :=
      { st with fs := p.1, fileOpen := p.2, initialized := true }
    let d := detectPreviousCrashE st1
    if d.1 then
      let st2 := d.2.1
      (if st2.fileOpen then { st2 with fs := appendDiag st2.fs crashMarker } else st2, d.2.2)
    else (d.2.1, d.2.2)
  else if !st.fileOpen then
    let p := openAppend st.fs
    ({ st with fs := p.1, fileOpen := p.2 }, none)
  else (st, none)

/-- `ScopeLogger::ensureFileOpen` proper. -/
def ensureFileOpen (st : GState) : GState :=
  (ensureFileOpenE st).1

/-- The line `ScopeLogger::log` builds:
`"[" dateTime "] " func_ ":" phase " " file_ " |" count`. -/
def recordLine (ts func phase file : String) (c : Int) : String :=
  "[" ++ ts ++ "] " ++ func ++ ":" ++ phase ++ " " ++ file ++ " |" ++ toString c

/-- `ScopeLogger::log`: ensure the file is open, format the record with the
current counter value, and write it when the stream is good.  Also returns
the counter value the record carries. -/
def logRecord (st : GState) (ts func phase file : String) : GState × Int :=
  let st1 := ensureFileOpen st
  let msg := recordLine ts func phase file st1.count
  ((if st1.fileOpen then { st1 with fs := appendDiag st1.fs msg } else st1), st1.count)

/-- A `ScopeLogger` instance: `func_`, `file_`, `line_`. -/
structure ScopeLogger where
  func : String
  file : String
  line : Int
deriving DecidableEq

/-- `ScopeLogger::ScopeLogger(func, file, line)`: `init()` (ensure open),
`log("start...")`, then `count_++`.  Returns the instance, the new state,
and the counter value the start record carried. -/
def ScopeLogger.construct (func file : String) (line : Int) (ts : String)
    (st : GState) : ScopeLogger × GState × Int :=
  let st0 := ensureFileOpen st
  let p := logRecord st0 ts func "start..." file
  (⟨func, file, line⟩, { p.1 with count := p.1.count + 1 }, p.2)

/-- `ScopeLogger::ScopeLogger(func, name, file, line)`: identical body with
`func_ = func ":" name`. -/
def ScopeLogger.constructNamed (func nm file : String) (line : Int) (ts : String)
    (st : GState) : ScopeLogger × GState × Int :=
  ScopeLogger.construct (func ++ ":" ++ nm) file line ts st

/-- `ScopeLogger::~ScopeLogger`: `count_--` then `log("end!")`.  Returns the
new state and the counter value the end record carried. -/
def ScopeLogger.destroy (sl : ScopeLogger) (ts : String) (st : GState) :
    GState × Int :=
  logRecord { st with count := st.count - 1 } ts sl.func "end!" sl.file

/-- `ScopeLogger::here(msg)`: `log(msg)`. -/
def ScopeLogger.here (sl : ScopeLogger) (msg ts : String) (st : GState) :
    GState × Int :=
  logRecord st ts sl.func msg sl.file

/-- The lines of the diagnostics file, `[]` when it does not exist. -/
def linesOf : Option DFile → List String
  | none => []
  | some f => f.lines

/-- How many crash-marker lines the diagnostics file holds. -/
def markersOf (o : Option DFile) : Nat :=
  (linesOf o).countP (· == crashMarker)

/-- A properly nested single-thread usage of `ScopeLogger`: `scope` is one
constructor/destructor pair enclosing an inner trace (the timestamps of the
two writes are `ts1`/`ts2`), `note` is a `here` call on the innermost live
instance. -/
inductive Trace where
  | done : Trace
  | scope (func file : String) (line : Int) (ts1 ts2 : String)
      (inner rest : Trace) : Trace
  | note (msg ts : String) (rest : Trace) : Trace
deriving DecidableEq

/-- Run a trace: `cur` is the innermost live instance, used by `note`; the
returned list collects, in order, the counter value carried by each record
written. -/
def runTrace : Trace → Option ScopeLogger → GState → GState × List Int
  | .done, _, st => (st, [])
  | .scope f fi l ts1 ts2 inner rest, cur, st =>
    let c := ScopeLogger.construct f fi l ts1 st
    let ri := runTrace inner (some c.1) c.2.1
    let d := c.1.destroy ts2 ri.1
    let rr := runTrace rest cur d.1
    (rr.1, c.2.2 :: (ri.2 ++ d.2 :: rr.2))
  | .note m ts rest, cur, st =>
    match cur with
    | some sl =>
      let h := sl.here m ts st
      let rr := runTrace rest cur h.1
      (rr.1, h.2 :: rr.2)
    | none => runTrace rest cur st

/-- The general message logger's file state (`utils::Log`): its `output.log`
slice of the file system, stream state, and one-time flag.  `Log` shares the
rotation logic, with the larger threshold. -/
structure LogFileState where
  fs : FS
  fileOpen : Bool
  initialized : Bool
deriving DecidableEq

/-- `Log::ensureFileOpen`: on first call rotate `output.log` at the 5 MiB
threshold and open for append; afterwards only reopen a closed stream. -/
def Log.ensureFileOpen (st : LogFileState) : LogFileState :=
  if !st.initialized then
    let fs1 := rotateIfTooLarge st.fs logThreshold
    let p := openAppend fs1
    { fs := p.1, fileOpen := p.2, initialized := true }
  else if !st.fileOpen then
    let p := openAppend st.fs
    { st with fs := p.1, fileOpen := p.2 }
  else st

/-- The 3 MiB diagnostics file a crashed previous run left behind: its last
line records a dangling open scope at depth 3. -/
def c3File : DFile := ⟨["x |3"], 3145728⟩

/-- Start-of-process state over that file. -/
def c3St : GState := ⟨⟨some c3File, none, true⟩, false, 0, false, false, false⟩

/-- Start-of-process state over a small (un-rotated) previous file. -/
def c3WSt : GState := ⟨⟨some ⟨["a |1"], 7⟩, none, true⟩, false, 0, false, false, false⟩

/-- A fresh process over an empty file system. -/
def freshSt : GState := ⟨⟨none, none, true⟩, false, 0, false, false, false⟩

/-- The spec's three-record scenario: construct a scope "foo" from
"file.cpp" line 10, write "halfway", destroy, all at timestamp "T"; yields
the final state and the three counter samples the records carried. -/
def c4Run : GState × List Int :=
  let c := ScopeLogger.construct "foo" "file.cpp" 10 "T" freshSt
  let a := c.1.here "halfway" "T" c.2.1
  let d := c.1.destroy "T" a.1
  (d.1, [c.2.2, a.2, d.2])

/-- A previous diagnostics file whose last line carries the count 2. -/
def c2WFile : DFile := ⟨["a |2"], 5⟩

/-- Start-of-process state over that file. -/
def c2WSt : GState := ⟨⟨some c2WFile, none, true⟩, false, 0, false, false, false⟩

/-- One scope with one inner free-text record. -/
def c5Tr : Trace := Trace.scope "a" "f" 1 "T" "T" (Trace.note "m" "T" Trace.done) Trace.done

/-- A diagnostics file one byte over the 2 MiB rotation threshold. -/
def c6WFile : DFile := ⟨["x |1"], 2097153⟩

/-- Start-of-process state over that file, with a stale backup present. -/
def c6WSt : GState := ⟨⟨some c6WFile, some ⟨["old"], 4⟩, true⟩, false, 0, false, false, false⟩

/-- A general log file one byte over the 5 MiB threshold. -/
def c6WLogFile : DFile := ⟨["y"], 5242881⟩

/-- The general logger's state over that file at first use. -/
def c6WLog : LogFileState := ⟨⟨some c6WLogFile, none, true⟩, false, false⟩

/-- An already-initialized state with an open stream and a backup on disk. -/
def c7WSt : GState := ⟨⟨some ⟨["r |1"], 6⟩, some ⟨["o"], 2⟩, true⟩, true, 2, true, false, true⟩

/-- A previous file whose last line is exactly the crash marker. -/
def c8WFile : DFile := ⟨["a |1", "## CRASH POINT ##"], 25⟩

/-- Start-of-process state over that file. -/
def c8WSt : GState := ⟨⟨some c8WFile, none, true⟩, false, 0, false, false, false⟩

/-- An initialized state whose stream failed to open and whose path cannot
be opened. -/
def c9WSt : GState := ⟨⟨some ⟨["a |1"], 6⟩, none, false⟩, false, 3, true, false, true⟩

/-- Start-of-process state over a file with a malformed trailing count. -/
def c9WSt2 : GState := ⟨⟨some ⟨["a |x2"], 7⟩, none, true⟩, false, 0, false, false, false⟩

theorem detectE_frame (st : GState) :
    (detectPreviousCrashE st).2.1.fs = st.fs ∧
    (detectPreviousCrashE st).2.1.fileOpen = st.fileOpen ∧
    (detectPreviousCrashE st).2.1.count = st.count ∧
    (detectPreviousCrashE st).2.1.initialized = st.initialized := by
  unfold detectPreviousCrashE
  dsimp only
  split
  · exact ⟨rfl, rfl, rfl, rfl⟩
  · split
    · exact ⟨rfl, rfl, rfl, rfl⟩
    · split
      · exact ⟨rfl, rfl, rfl, rfl⟩
      · split
        · exact ⟨rfl, rfl, rfl, rfl⟩
        · exact ⟨rfl, rfl, rfl, rfl⟩

theorem detectE_fs (st : GState) : (detectPreviousCrashE st).2.1.fs = st.fs :=
  (detectE_frame st).1

theorem detectE_fileOpen (st : GState) :
    (detectPreviousCrashE st).2.1.fileOpen = st.fileOpen :=
  (detectE_frame st).2.1

theorem detectE_count (st : GState) : (detectPreviousCrashE st).2.1.count = st.count :=
  (detectE_frame st).2.2.1

theorem detectE_initialized (st : GState) :
    (detectPreviousCrashE st).2.1.initialized = st.initialized :=
  (detectE_frame st).2.2.2

theorem openAppend_bak (fs : FS) : (openAppend fs).1.bak = fs.bak := by
  unfold openAppend
  split
  · split <;> rfl
  · rfl

theorem openAppend_openable (fs : FS) : (openAppend fs).1.openable = fs.openable := by
  unfold openAppend
  split
  · split <;> rfl
  · rfl

theorem openAppend_snd (fs : FS) : (openAppend fs).2 = fs.openable := by
  unfold openAppend
  split
  · split <;> simp_all
  · simp_all

theorem openAppend_markers (fs : FS) :
    markersOf (openAppend fs).1.diag = markersOf fs.diag := by
  unfold openAppend
  split
  · split <;> simp_all [markersOf, linesOf]
  · rfl

theorem appendDiag_bak (fs : FS) (l : String) : (appendDiag fs l).bak = fs.bak := by
  unfold appendDiag; split <;> rfl

theorem appendDiag_openable (fs : FS) (l : String) :
    (appendDiag fs l).openable = fs.openable := by
  unfold appendDiag; split <;> rfl

theorem rotateIfTooLarge_openable (fs : FS) (m : Nat) :
    (rotateIfTooLarge fs m).openable = fs.openable := by
  unfold rotateIfTooLarge
  split
  · split <;> rfl
  · rfl

theorem ensureFileOpen_count (st : GState) : (ensureFileOpen st).count = st.count := by
  unfold ensureFileOpen ensureFileOpenE
  dsimp only
  split
  · split
    · split <;> simp [appendDiag, detectE_count]
    · simp [detectE_count]
  · split <;> rfl

theorem ensureFileOpen_initialized (st : GState) :
    (ensureFileOpen st).initialized = true := by
  unfold ensureFileOpen ensureFileOpenE
  dsimp only
  split
  · split
    · split <;> simp [appendDiag, detectE_initialized]
    · simp [detectE_initialized]
  · split
    · simp_all
    · simp_all

theorem ensureFileOpen_openable (st : GState) :
    (ensureFileOpen st).fs.openable = st.fs.openable := by
  unfold ensureFileOpen ensureFileOpenE
  dsimp only
  split
  · split
    · split <;>
        simp [appendDiag_openable, detectE_fs, openAppend_openable, rotateIfTooLarge_openable]
    · simp [detectE_fs, openAppend_openable, rotateIfTooLarge_openable]
  · split
    · simp [openAppend_openable]
    · rfl

theorem ensureFileOpen_fileOpen (st : GState) :
    (ensureFileOpen st).fileOpen = (st.initialized && st.fileOpen || st.fs.openable) := by
  unfold ensureFileOpen ensureFileOpenE
  dsimp only
  split
  · split
    · split <;>
        simp_all [appendDiag, detectE_fileOpen, openAppend_snd, rotateIfTooLarge_openable]
    · simp_all [detectE_fileOpen, openAppend_snd, rotateIfTooLarge_openable]
  · split
    · simp_all [openAppend_snd]
    · simp_all

theorem ensureFileOpen_initTrue (st : GState) (h : st.initialized = true) :
    (ensureFileOpen st).fs.bak = st.fs.bak ∧
    markersOf (ensureFileOpen st).fs.diag = markersOf st.fs.diag ∧
    (ensureFileOpen st).crashChecked = st.crashChecked ∧
    (ensureFileOpen st).crashedLastTime = st.crashedLastTime := by
  unfold ensureFileOpen ensureFileOpenE
  dsimp only
  split
  · simp_all
  · split
    · exact ⟨openAppend_bak st.fs, openAppend_markers st.fs, rfl, rfl⟩
    · exact ⟨rfl, rfl, rfl, rfl⟩

theorem openAppend_not_openable (fs : FS) (h : fs.openable = false) :
    openAppend fs = (fs, false) := by
  unfold openAppend
  simp [h]

theorem ensureFileOpen_of_initialized (st : GState) (h : st.initialized = true) :
    ensureFileOpen st =
      if st.fileOpen then st
      else { st with fs := (openAppend st.fs).1, fileOpen := (openAppend st.fs).2 } := by
  unfold ensureFileOpen ensureFileOpenE
  dsimp only
  rw [h]
  by_cases h2 : st.fileOpen <;> simp [h2]

theorem gstate_eta_update (st : GState) (h : st.fileOpen = false) :
    ({ st with fs := st.fs, fileOpen := false } : GState) = st := by
  cases st
  simp_all

theorem ensureFileOpen_noop (st : GState) (h1 : st.initialized = true)
    (h2 : st.fileOpen = false) (h3 : st.fs.openable = false) :
    ensureFileOpen st = st := by
  rw [ensureFileOpen_of_initialized st h1, if_neg (by simp [h2]),
    openAppend_not_openable st.fs h3]
  exact gstate_eta_update st h2

theorem ensureFileOpen_idem (st : GState) :
    ensureFileOpen (ensureFileOpen st) = ensureFileOpen st := by
  have hinit := ensureFileOpen_initialized st
  by_cases h : (ensureFileOpen st).fileOpen = true
  · rw [ensureFileOpen_of_initialized _ hinit, if_pos (by rw [h])]
  · have h' : (ensureFileOpen st).fileOpen = false := by
      cases hc : (ensureFileOpen st).fileOpen
      · rfl
      · exact absurd hc h
    have hop : (ensureFileOpen st).fs.openable = false := by
      rw [ensureFileOpen_openable st]
      have hfe := ensureFileOpen_fileOpen st
      cases hcon : st.fs.openable
      · rfl
      · rw [hcon, Bool.or_true] at hfe
        exact absurd hfe h
    exact ensureFileOpen_noop _ hinit h' hop

theorem recordLine_ne_marker (ts f p fi : String) (c : Int) :
    recordLine ts f p fi c ≠ crashMarker := by
  intro h
  have h2 := congrArg String.data h
  simp only [recordLine, crashMarker, String.data_append] at h2
  simp at h2

theorem markersOf_append_record (fs : FS) (l : String) (h : l ≠ crashMarker) :
    markersOf (appendDiag fs l).diag = markersOf fs.diag := by
  unfold appendDiag
  split
  · simp_all [markersOf, linesOf, List.countP_append, List.countP_cons]
  · rfl

theorem logRecord_count (st : GState) (ts f p fi : String) :
    (logRecord st ts f p fi).1.count = st.count := by
  unfold logRecord
  dsimp only
  split
  · exact ensureFileOpen_count st
  · exact ensureFileOpen_count st

theorem logRecord_emit (st : GState) (ts f p fi : String) :
    (logRecord st ts f p fi).2 = st.count := by
  unfold logRecord
  dsimp only
  exact ensureFileOpen_count st

theorem logRecord_initialized (st : GState) (ts f p fi : String) :
    (logRecord st ts f p fi).1.initialized = true := by
  unfold logRecord
  dsimp only
  split
  · exact ensureFileOpen_initialized st
  · exact ensureFileOpen_initialized st

theorem logRecord_initTrue (st : GState) (ts f p fi : String) (h : st.initialized = true) :
    (logRecord st ts f p fi).1.fs.bak = st.fs.bak ∧
    markersOf (logRecord st ts f p fi).1.fs.diag = markersOf st.fs.diag ∧
    (logRecord st ts f p fi).1.crashChecked = st.crashChecked ∧
    (logRecord st ts f p fi).1.crashedLastTime = st.crashedLastTime := by
  have hE := ensureFileOpen_initTrue st h
  unfold logRecord
  dsimp only
  split
  · refine ⟨?_, ?_, ?_, ?_⟩
    · rw [appendDiag_bak]
      exact hE.1
    · rw [markersOf_append_record _ _ (recordLine_ne_marker _ _ _ _ _)]
      exact hE.2.1
    · exact hE.2.2.1
    · exact hE.2.2.2
  · exact hE

theorem construct_count (f fi : String) (l : Int) (ts : String) (st : GState) :
    (ScopeLogger.construct f fi l ts st).2.1.count = st.count + 1 := by
  unfold ScopeLogger.construct
  dsimp only
  rw [logRecord_count, ensureFileOpen_count]

theorem construct_emit (f fi : String) (l : Int) (ts : String) (st : GState) :
    (ScopeLogger.construct f fi l ts st).2.2 = st.count := by
  unfold ScopeLogger.construct
  dsimp only
  rw [logRecord_emit, ensureFileOpen_count]

theorem construct_initialized (f fi : String) (l : Int) (ts : String) (st : GState) :
    (ScopeLogger.construct f fi l ts st).2.1.initialized = true := by
  unfold ScopeLogger.construct
  dsimp only
  exact logRecord_initialized _ _ _ _ _

theorem construct_initTrue (f fi : String) (l : Int) (ts : String) (st : GState)
    (h : st.initialized = true) :
    (ScopeLogger.construct f fi l ts st).2.1.fs.bak = st.fs.bak ∧
    markersOf (ScopeLogger.construct f fi l ts st).2.1.fs.diag = markersOf st.fs.diag := by
  have hE := ensureFileOpen_initTrue st h
  have hL := logRecord_initTrue (ensureFileOpen st) ts f "start..." fi
    (ensureFileOpen_initialized st)
  unfold ScopeLogger.construct
  dsimp only
  exact ⟨hL.1.trans hE.1, hL.2.1.trans hE.2.1⟩

theorem destroy_count (sl : ScopeLogger) (ts : String) (st : GState) :
    (sl.destroy ts st).1.count = st.count - 1 := by
  unfold ScopeLogger.destroy
  rw [logRecord_count]

theorem destroy_emit (sl : ScopeLogger) (ts : String) (st : GState) :
    (sl.destroy ts st).2 = st.count - 1 := by
  unfold ScopeLogger.destroy
  rw [logRecord_emit]

theorem destroy_initialized (sl : ScopeLogger) (ts : String) (st : GState) :
    (sl.destroy ts st).1.initialized = true := by
  unfold ScopeLogger.destroy
  exact logRecord_initialized _ _ _ _ _

theorem destroy_initTrue (sl : ScopeLogger) (ts : String) (st : GState)
    (h : st.initialized = true) :
    (sl.destroy ts st).1.fs.bak = st.fs.bak ∧
    markersOf (sl.destroy ts st).1.fs.diag = markersOf st.fs.diag := by
  have hL := logRecord_initTrue { st with count := st.count - 1 } ts sl.func "end!" sl.file h
  unfold ScopeLogger.destroy
  exact ⟨hL.1, hL.2.1⟩

theorem here_count (sl : ScopeLogger) (m ts : String) (st : GState) :
    (sl.here m ts st).1.count = st.count := by
  unfold ScopeLogger.here
  rw [logRecord_count]

theorem here_emit (sl : ScopeLogger) (m ts : String) (st : GState) :
    (sl.here m ts st).2 = st.count := by
  unfold ScopeLogger.here
  rw [logRecord_emit]

theorem here_initialized (sl : ScopeLogger) (m ts : String) (st : GState) :
    (sl.here m ts st).1.initialized = true := by
  unfold ScopeLogger.here
  exact logRecord_initialized _ _ _ _ _

theorem here_initTrue (sl : ScopeLogger) (m ts : String) (st : GState)
    (h : st.initialized = true) :
    (sl.here m ts st).1.fs.bak = st.fs.bak ∧
    markersOf (sl.here m ts st).1.fs.diag = markersOf st.fs.diag := by
  have hL := logRecord_initTrue st ts sl.func m sl.file h
  unfold ScopeLogger.here
  exact ⟨hL.1, hL.2.1⟩

theorem runTrace_count : ∀ (t : Trace) (cur : Option ScopeLogger) (st : GState),
    (runTrace t cur st).1.count = st.count := by
  intro t
  induction t with
  | done => intro cur st; rfl
  | scope f fi l ts1 ts2 inner rest ih1 ih2 =>
    intro cur st
    unfold runTrace
    dsimp only
    rw [ih2, destroy_count, ih1, construct_count]
    omega
  | note m ts rest ih =>
    intro cur st
    unfold runTrace
    cases cur with
    | some sl =>
      dsimp only
      rw [ih, here_count]
    | none => exact ih none st

theorem runTrace_emit_nonneg : ∀ (t : Trace) (cur : Option ScopeLogger) (st : GState),
    0 ≤ st.count → ∀ c ∈ (runTrace t cur st).2, 0 ≤ c := by
  intro t
  induction t with
  | done =>
    intro cur st h c hc
    simp [runTrace] at hc
  | scope f fi l ts1 ts2 inner rest ih1 ih2 =>
    intro cur st h c hc
    unfold runTrace at hc
    dsimp only at hc
    simp only [List.mem_cons, List.mem_append] at hc
    rcases hc with h1 | h2 | h3 | h4
    · rw [h1, construct_emit]
      exact h
    · exact ih1 _ _ (by rw [construct_count]; omega) _ h2
    · rw [h3, destroy_emit, runTrace_count, construct_count]
      omega
    · refine ih2 cur _ ?_ _ h4
      rw [destroy_count, runTrace_count, construct_count]
      omega
  | note m ts rest ih =>
    intro cur st h c hc
    unfold runTrace at hc
    cases cur with
    | some sl =>
      dsimp only at hc
      simp only [List.mem_cons] at hc
      rcases hc with h1 | h2
      · rw [h1, here_emit]
        exact h
      · exact ih _ _ (by rw [here_count]; exact h) _ h2
    | none => exact ih none st h c hc

theorem runTrace_preserve : ∀ (t : Trace) (cur : Option ScopeLogger) (st : GState),
    st.initialized = true →
    (runTrace t cur st).1.initialized = true ∧
    (runTrace t cur st).1.fs.bak = st.fs.bak ∧
    markersOf (runTrace t cur st).1.fs.diag = markersOf st.fs.diag := by
  intro t
  induction t with
  | done => intro cur st h; exact ⟨h, rfl, rfl⟩
  | scope f fi l ts1 ts2 inner rest ih1 ih2 =>
    intro cur st h
    unfold runTrace
    dsimp only
    have hc := construct_initTrue f fi l ts1 st h
    have hci := construct_initialized f fi l ts1 st
    have hi := ih1 (some ((ScopeLogger.construct f fi l ts1 st).1)) _ hci
    have hd := destroy_initTrue (ScopeLogger.construct f fi l ts1 st).1 ts2 _ hi.1
    have hdi := destroy_initialized (ScopeLogger.construct f fi l ts1 st).1 ts2
      (runTrace inner (some (ScopeLogger.construct f fi l ts1 st).1)
        (ScopeLogger.construct f fi l ts1 st).2.1).1
    have hr := ih2 cur _ hdi
    refine ⟨hr.1, ?_, ?_⟩
    · rw [hr.2.1, hd.1, hi.2.1, hc.1]
    · rw [hr.2.2, hd.2, hi.2.2, hc.2]
  | note m ts rest ih =>
    intro cur st h
    unfold runTrace
    cases cur with
    | some sl =>
      dsimp only
      have hh := here_initTrue sl m ts st h
      have hhi := here_initialized sl m ts st
      have hr := ih (some sl) _ hhi
      exact ⟨hr.1, hr.2.1.trans hh.1, hr.2.2.trans hh.2⟩
    | none => exact ih none st h

theorem detect_fresh_some (st : GState) (f : DFile) (h1 : st.crashChecked = false)
    (h2 : st.fs.diag = some f) :
    (detectPreviousCrash st).1 =
      (match afterLastBar (f.lines.getLastD "").data with
       | none => false
       | some tail =>
         match stoi? (String.mk tail) with
         | some n => decide (0 < n)
         | none => false) := by
  unfold detectPreviousCrash detectPreviousCrashE
  dsimp only
  rw [if_neg (by simp [h1]), h2]
  dsimp only
  cases h3 : afterLastBar (f.lines.getLastD "").data with
  | none => rfl
  | some tail =>
    cases h4 : stoi? (String.mk tail) <;> simp [h4]

theorem examined_no_rotation (st : GState) (f : DFile)
    (h1 : st.initialized = false) (h2 : st.crashChecked = false)
    (h3 : st.fs.diag = some f) (h4 : ¬ diagThreshold < f.size) :
    (ensureFileOpenE st).2 = some (f.lines.getLastD "") := by
  obtain ⟨⟨d, b, op⟩, fo, c, ini, clt, cc⟩ := st
  dsimp only at h1 h2 h3
  subst h1
  subst h2
  subst h3
  unfold ensureFileOpenE rotateIfTooLarge openAppend detectPreviousCrashE
  dsimp only
  rw [if_neg h4]
  cases op <;>
    cases h6 : afterLastBar ((f.lines.getLastD "").data) <;>
      simp_all <;>
        cases h7 : stoi? (String.mk _) <;> simp_all <;> (try (split <;> rfl))

theorem rotate_noop (fs : FS) (f : DFile) (m : Nat) (h : fs.diag = some f)
    (h4 : ¬ m < f.size) :
    rotateIfTooLarge fs m = fs := by
  unfold rotateIfTooLarge
  rw [h]
  dsimp only
  rw [if_neg h4]

theorem rotate_flush (fs : FS) (f : DFile) (m : Nat) (h : fs.diag = some f)
    (h4 : m < f.size) :
    rotateIfTooLarge fs m = { fs with diag := none, bak := some f } := by
  unfold rotateIfTooLarge
  rw [h]
  dsimp only
  rw [if_pos h4]

theorem openAppend_some (fs : FS) (f : DFile) (h : fs.diag = some f) :
    openAppend fs = (fs, fs.openable) := by
  unfold openAppend
  cases h2 : fs.openable
  · rfl
  · rw [h]
    rfl

theorem openAppend_none (fs : FS) (h : fs.diag = none) (h2 : fs.openable = true) :
    openAppend fs = ({ fs with diag := some ⟨[], 0⟩ }, true) := by
  unfold openAppend
  rw [h2, h]
  rfl

theorem detectE_no_bar (st : GState) (f : DFile)
    (h2 : st.crashChecked = false) (h3 : st.fs.diag = some f)
    (h6 : afterLastBar (f.lines.getLastD "").data = none) :
    detectPreviousCrashE st =
      (false, { st with crashChecked := true }, some (f.lines.getLastD "")) := by
  unfold detectPreviousCrashE
  rw [if_neg (by simp [h2])]
  dsimp only
  rw [h3]
  dsimp only
  rw [h6]

theorem detectE_bad_int (st : GState) (f : DFile) (tail : List Char)
    (h2 : st.crashChecked = false) (h3 : st.fs.diag = some f)
    (h6 : afterLastBar (f.lines.getLastD "").data = some tail)
    (h7 : stoi? (String.mk tail) = none) :
    detectPreviousCrashE st =
      (false, { st with crashedLastTime := false, crashChecked := true },
        some (f.lines.getLastD "")) := by
  unfold detectPreviousCrashE
  rw [if_neg (by simp [h2])]
  dsimp only
  rw [h3]
  dsimp only
  rw [h6]
  dsimp only
  rw [h7]

theorem detectE_crash (st : GState) (f : DFile) (tail : List Char) (n : Int)
    (h2 : st.crashChecked = false) (h3 : st.fs.diag = some f)
    (h6 : afterLastBar (f.lines.getLastD "").data = some tail)
    (h7 : stoi? (String.mk tail) = some n) (h8 : 0 < n) :
    detectPreviousCrashE st =
      (true, { st with crashedLastTime := true, crashChecked := true },
        some (f.lines.getLastD "")) := by
  unfold detectPreviousCrashE
  rw [if_neg (by simp [h2])]
  dsimp only
  rw [h3]
  dsimp only
  rw [h6]
  dsimp only
  rw [h7]
  dsimp only
  simp [h8]

theorem ensure_fresh_crash (st : GState) (f : DFile) (tail : List Char) (n : Int)
    (h1 : st.initialized = false) (h2 : st.crashChecked = false)
    (h3 : st.fs.diag = some f) (h4 : ¬ diagThreshold < f.size)
    (h5 : st.fs.openable = true)
    (h6 : afterLastBar (f.lines.getLastD "").data = some tail)
    (h7 : stoi? (String.mk tail) = some n) (h8 : 0 < n) :
    ensureFileOpen st =
      { st with
        fs := appendDiag st.fs crashMarker, fileOpen := true,
        initialized := true, crashedLastTime := true, crashChecked := true } := by
  unfold ensureFileOpen ensureFileOpenE
  dsimp only
  rw [if_pos (by simp [h1]), rotate_noop st.fs f diagThreshold h3 h4, openAppend_some st.fs f h3, h5]
  dsimp only
  rw [detectE_crash { st with fs := st.fs, fileOpen := true, initialized := true }
    f tail n h2 h3 h6 h7 h8]
  rfl

theorem ensure_rotation (st : GState) (f : DFile)
    (h1 : st.initialized = false) (h2 : st.crashChecked = false)
    (h3 : st.fs.diag = some f) (h4 : diagThreshold < f.size)
    (h5 : st.fs.openable = true) :
    ensureFileOpenE st =
      ({ st with
         fs := { st.fs with diag := some ⟨[], 0⟩, bak := some f }, fileOpen := true,
         initialized := true, crashChecked := true }, some "") := by
  unfold ensureFileOpenE
  dsimp only
  rw [if_pos (by simp [h1]), rotate_flush st.fs f diagThreshold h3 h4]
  rw [openAppend_none { st.fs with diag := none, bak := some f } rfl h5]
  dsimp only
  rw [detectE_no_bar
    { st with
      fs := { diag := some ⟨[], 0⟩, bak := some f, openable := st.fs.openable },
      fileOpen := true, initialized := true }
    ⟨[], 0⟩ h2 rfl rfl]
  rfl

theorem ensure_fresh_no_bar (st : GState) (f : DFile)
    (h1 : st.initialized = false) (h2 : st.crashChecked = false)
    (h3 : st.fs.diag = some f) (h4 : ¬ diagThreshold < f.size)
    (h6 : afterLastBar (f.lines.getLastD "").data = none) :
    ensureFileOpen st =
      { st with
        fileOpen := st.fs.openable, initialized := true,
        crashChecked := true } := by
  unfold ensureFileOpen ensureFileOpenE
  dsimp only
  rw [if_pos (by simp [h1]), rotate_noop st.fs f diagThreshold h3 h4, openAppend_some st.fs f h3]
  dsimp only
  rw [detectE_no_bar
    { st with fs := st.fs, fileOpen := st.fs.openable, initialized := true }
    f h2 h3 h6]
  rfl

theorem crashMarker_no_bar : afterLastBar crashMarker.data = none := by decide

theorem logRecord_open_append (st : GState) (f : DFile) (ts fn ph fi : String)
    (h1 : st.initialized = true) (h2 : st.fileOpen = true) (h3 : st.fs.diag = some f) :
    linesOf (logRecord st ts fn ph fi).1.fs.diag
      = f.lines ++ [recordLine ts fn ph fi st.count] := by
  unfold logRecord
  dsimp only
  rw [ensureFileOpen_of_initialized st h1, if_pos (by simp [h2]), if_pos (by simp [h2])]
  dsimp only
  unfold appendDiag
  rw [h3]
  rfl

/-- C1: for every construction the start record carries the shared counter
value sampled before the increment (both constructor overloads), and for
every destruction the end record carries the value sampled after the
decrement; the counter afterwards is the sampled value plus one,
respectively the written value itself. -/
theorem C1_start_pre_increment_end_post_decrement
    (func nm file : String) (line : Int) (ts : String) (st : GState)
    (sl : ScopeLogger) :
    (ScopeLogger.construct func file line ts st).2.2 = st.count ∧
    (ScopeLogger.construct func file line ts st).2.1.count = st.count + 1 ∧
    (ScopeLogger.constructNamed func nm file line ts st).2.2 = st.count ∧
    (ScopeLogger.constructNamed func nm file line ts st).2.1.count = st.count + 1 ∧
    (sl.destroy ts st).2 = st.count - 1 ∧
    (sl.destroy ts st).1.count = st.count - 1 :=
  ⟨construct_emit _ _ _ _ _, construct_count _ _ _ _ _,
   construct_emit _ _ _ _ _, construct_count _ _ _ _ _,
   destroy_emit _ _ _, destroy_count _ _ _⟩

/-- C10: no emitted record depends on the stored line number — two instances
differing only in the constructor's line argument produce identical states,
identical written lines and identical counter samples. -/
theorem C10_line_number_never_emitted
    (f fi m ts : String) (l1 l2 : Int) (st : GState) :
    (ScopeLogger.construct f fi l1 ts st).2 = (ScopeLogger.construct f fi l2 ts st).2 ∧
    ScopeLogger.destroy ⟨f, fi, l1⟩ ts st = ScopeLogger.destroy ⟨f, fi, l2⟩ ts st ∧
    ScopeLogger.here ⟨f, fi, l1⟩ m ts st = ScopeLogger.here ⟨f, fi, l2⟩ m ts st :=
  ⟨rfl, rfl, rfl⟩

/-- C5: each construction increments the shared counter by exactly one, each
destruction decrements it by exactly one, and any properly nested
single-thread trace started at counter 0 ends at counter 0 with every
record's counter sample nonnegative. -/
theorem C5_nesting_depth_matches_counter
    (f fi : String) (l : Int) (ts : String) (st st' : GState)
    (sl : ScopeLogger) (t : Trace) :
    (ScopeLogger.construct f fi l ts st).2.1.count = st.count + 1 ∧
    (sl.destroy ts st).1.count = st.count - 1 ∧
    (st'.count = 0 →
      (runTrace t none st').1.count = 0 ∧
      ∀ c ∈ (runTrace t none st').2, 0 ≤ c) := by
  refine ⟨construct_count _ _ _ _ _, destroy_count _ _ _, fun h => ⟨?_, ?_⟩⟩
  · rw [runTrace_count, h]
  · exact runTrace_emit_nonneg t none st' (by simp [h])

/-- C7: the ensure-open operation is idempotent — a second call leaves the
state exactly as the first call left it — and on an already-initialized
state it performs no rename: the backup file is untouched and the
initialization flag stays set. -/
theorem C7_ensure_open_idempotent (st : GState) :
    ensureFileOpen (ensureFileOpen st) = ensureFileOpen st ∧
    (st.initialized = true →
      (ensureFileOpen st).fs.bak = st.fs.bak ∧
      (ensureFileOpen st).initialized = true) :=
  ⟨ensureFileOpen_idem st, fun h =>
    ⟨(ensureFileOpen_initTrue st h).1, ensureFileOpen_initialized st⟩⟩

/-- C2: the crash check parses the text after the final bar of the previous
file's last line as an integer — no bar or a failed parse concludes no
crash, a parsed integer concludes crash exactly when it is positive; on a
detected crash the marker line is appended once, directly before the new
start record; and once the process is initialized no operation ever adds
another marker line. -/
theorem C2_crash_parse_and_marker_once (st st' : GState) (f : DFile)
    (tail : List Char) (n : Int) (fn fi ts : String) (l : Int)
    (t : Trace) (cur : Option ScopeLogger)
    (h1 : st.crashChecked = false) (h2 : st.fs.diag = some f) :
    (afterLastBar (f.lines.getLastD "").data = none →
      (detectPreviousCrash st).1 = false) ∧
    (afterLastBar (f.lines.getLastD "").data = some tail →
      stoi? (String.mk tail) = none → (detectPreviousCrash st).1 = false) ∧
    (afterLastBar (f.lines.getLastD "").data = some tail →
      stoi? (String.mk tail) = some n →
      ((detectPreviousCrash st).1 = true ↔ 0 < n)) ∧
    (st.initialized = false → st.fs.openable = true →
      ¬ diagThreshold < f.size →
      afterLastBar (f.lines.getLastD "").data = some tail →
      stoi? (String.mk tail) = some n → 0 < n →
      linesOf (ScopeLogger.construct fn fi l ts st).2.1.fs.diag
        = f.lines ++ [crashMarker, recordLine ts fn "start..." fi st.count]) ∧
    (st'.initialized = true →
      markersOf (runTrace t cur st').1.fs.diag = markersOf st'.fs.diag) := by
  refine ⟨?_, ?_, ?_, ?_, fun hI => (runTrace_preserve t cur st' hI).2.2⟩
  · intro h3
    rw [detect_fresh_some st f h1 h2, h3]
  · intro h3 h4
    rw [detect_fresh_some st f h1 h2, h3]
    dsimp only
    rw [h4]
  · intro h3 h4
    rw [detect_fresh_some st f h1 h2, h3]
    dsimp only
    rw [h4]
    simp
  · intro hi ho hs h3 h4 h5
    have hE := ensure_fresh_crash st f tail n hi h1 h2 hs ho h3 h4 h5
    unfold ScopeLogger.construct
    dsimp only
    rw [hE]
    rw [logRecord_open_append
      { st with
        fs := appendDiag st.fs crashMarker, fileOpen := true,
        initialized := true, crashedLastTime := true, crashChecked := true }
      ⟨f.lines ++ [crashMarker], f.size + crashMarker.length + 1⟩
      ts fn "start..." fi rfl rfl (by unfold appendDiag; rw [h2])]
    simp

/-- C6: at first open a diagnostics file strictly above the 2 MiB threshold
is renamed to the backup name, dropping any pre-existing backup; a file at
or below the threshold stays in place; the general log rotates the same way
at its 5 MiB threshold; and once the process is initialized neither the
ensure-open operation nor any scope operation changes the backup again. -/
theorem C6_rotation_strict_threshold_once
    (fs : FS) (f : DFile) (st : GState) (lst : LogFileState)
    (t : Trace) (cur : Option ScopeLogger) :
    (fs.diag = some f → diagThreshold < f.size →
      rotateIfTooLarge fs diagThreshold = { fs with diag := none, bak := some f }) ∧
    (fs.diag = some f → ¬ diagThreshold < f.size →
      rotateIfTooLarge fs diagThreshold = fs) ∧
    (st.initialized = false → st.crashChecked = false → st.fs.diag = some f →
      diagThreshold < f.size → st.fs.openable = true →
      (ensureFileOpenE st).1.fs.bak = some f) ∧
    (lst.initialized = false → lst.fs.diag = some f → logThreshold < f.size →
      (Log.ensureFileOpen lst).fs.bak = some f) ∧
    (st.initialized = true → (ensureFileOpen st).fs.bak = st.fs.bak) ∧
    (st.initialized = true → (runTrace t cur st).1.fs.bak = st.fs.bak) := by
  refine ⟨fun h1 h2 => rotate_flush fs f diagThreshold h1 h2,
    fun h1 h2 => rotate_noop fs f diagThreshold h1 h2,
    fun h1 h2 h3 h4 h5 => ?_, fun h1 h2 h3 => ?_,
    fun h => (ensureFileOpen_initTrue st h).1,
    fun h => (runTrace_preserve t cur st h).2.1⟩
  · rw [ensure_rotation st f h1 h2 h3 h4 h5]
  · unfold Log.ensureFileOpen
    dsimp only
    rw [if_pos (by simp [h1]), rotate_flush lst.fs f logThreshold h2 h3]
    dsimp only
    rw [openAppend_bak]

/-- C8: when the previous run's diagnostics file ends with the bare crash
marker line (which has no bar-count suffix) and is below the rotation
threshold, the next process's crash check concludes no crash, the first open
leaves the file content unchanged, and no operation of that run ever adds a
marker line. -/
theorem C8_trailing_marker_line_means_no_crash (st : GState) (f : DFile)
    (t : Trace) (cur : Option ScopeLogger)
    (h1 : st.initialized = false) (h2 : st.crashChecked = false)
    (h3 : st.crashedLastTime = false)
    (h4 : st.fs.diag = some f) (h5 : f.lines.getLastD "" = crashMarker)
    (h6 : ¬ diagThreshold < f.size) :
    (detectPreviousCrash st).1 = false ∧
    (ensureFileOpen st).fs.diag = st.fs.diag ∧
    (ensureFileOpen st).crashedLastTime = false ∧
    markersOf (runTrace t cur (ensureFileOpen st)).1.fs.diag
      = markersOf st.fs.diag := by
  have hbar : afterLastBar (f.lines.getLastD "").data = none := by
    rw [h5]
    exact crashMarker_no_bar
  have hE := ensure_fresh_no_bar st f h1 h2 h4 h6 hbar
  refine ⟨?_, ?_, ?_, ?_⟩
  · rw [detect_fresh_some st f h2 h4, hbar]
  · rw [hE]
  · rw [hE]
    exact h3
  · have hp := runTrace_preserve t cur (ensureFileOpen st) (ensureFileOpen_initialized st)
    rw [hp.2.2, hE]

/-- C9: with the stream not good and the path unopenable, writes are silently
dropped — the file system is untouched — while the in-memory counter still
increments on construction and decrements on destruction exactly as on
success; and a malformed trailing count field makes the crash check conclude
no crash instead of failing. -/
theorem C9_io_failure_drops_writes_not_counts
    (st st' : GState) (f fi m ts : String) (l : Int) (sl : ScopeLogger)
    (tail : List Char)
    (h1 : st.initialized = true) (h2 : st.fileOpen = false)
    (h3 : st.fs.openable = false) :
    ((ScopeLogger.construct f fi l ts st).2.1.fs = st.fs ∧
     (ScopeLogger.construct f fi l ts st).2.1.count = st.count + 1 ∧
     (sl.here m ts st).1.fs = st.fs ∧
     (sl.destroy ts st).1.fs = st.fs ∧
     (sl.destroy ts st).1.count = st.count - 1) ∧
    (st'.crashChecked = false →
      afterLastBar (lastLineOf st'.fs.diag).data = some tail →
      stoi? (String.mk tail) = none →
      (detectPreviousCrash st').1 = false) := by
  have hno := ensureFileOpen_noop st h1 h2 h3
  refine ⟨⟨?_, construct_count _ _ _ _ _, ?_, ?_, destroy_count _ _ _⟩, ?_⟩
  · unfold ScopeLogger.construct logRecord
    dsimp only
    simp only [hno]
    rw [if_neg (by simp [h2])]
  · unfold ScopeLogger.here logRecord
    dsimp only
    simp only [hno]
    rw [if_neg (by simp [h2])]
  · unfold ScopeLogger.destroy logRecord
    dsimp only
    rw [ensureFileOpen_noop { st with count := st.count - 1 } h1 h2 h3,
      if_neg (by simp [h2])]
  · intro h4 h5 h6
    cases hd : st'.fs.diag with
    | none =>
      rw [hd] at h5
      simp [lastLineOf, afterLastBar] at h5
    | some fd =>
      rw [hd] at h5
      rw [detect_fresh_some st' fd h4 hd]
      dsimp only [lastLineOf] at h5
      rw [h5]
      dsimp only
      rw [h6]

/-- C3 counterexample: with the 3 MiB file whose last line "x |3" records a
dangling open scope, the first open rotates the file away and the crash
check examines the freshly created empty file — not the last line written by
the previous run — and finds no crash. -/
theorem C3_counterexample_detector_ignores_backup :
    lastLineOf c3St.fs.diag = "x |3" ∧
    (ensureFileOpenE c3St).2 = some "" ∧
    (ensureFileOpenE c3St).2 ≠ some (lastLineOf c3St.fs.diag) ∧
    (ensureFileOpenE c3St).1.crashedLastTime = false ∧
    (ensureFileOpenE c3St).1.fs.bak = some c3File := by decide

/-- C3 amended: the crash detector inspects the diagnostics file at its
original path as that path exists after this process's rotation and open:
when no rotation occurs the examined line is the pre-existing file's last
line; when rotation occurs the detector examines the newly created empty
file — the backup is never consulted, and detection concludes no crash.
Detection does not depend on the backup file at all. -/
theorem C3_amended_detector_reads_original_path (st : GState) (f : DFile)
    (b : Option DFile)
    (h1 : st.initialized = false) (h2 : st.crashChecked = false)
    (h3 : st.fs.diag = some f) :
    (¬ diagThreshold < f.size →
      (ensureFileOpenE st).2 = some (f.lines.getLastD "")) ∧
    (diagThreshold < f.size → st.fs.openable = true →
      (ensureFileOpenE st).2 = some "" ∧
      (ensureFileOpenE st).1.crashedLastTime = st.crashedLastTime ∧
      (ensureFileOpenE st).1.fs.bak = some f) ∧
    (detectPreviousCrashE { st with fs := { st.fs with bak := b } }).1
      = (detectPreviousCrashE st).1 := by
  refine ⟨fun h4 => examined_no_rotation st f h1 h2 h3 h4, fun h4 h5 => ?_, ?_⟩
  · rw [ensure_rotation st f h1 h2 h3 h4 h5]
    exact ⟨rfl, rfl, rfl⟩
  · unfold detectPreviousCrashE
    dsimp only
    split
    · rfl
    · split
      · rfl
      · split
        · rfl
        · split <;> rfl

/-- Witness for the amended C3 at a small and at an over-threshold file. -/
theorem C3_amended_detector_reads_original_path_witness :
    (ensureFileOpenE c3WSt).2 = some "a |1" ∧
    (ensureFileOpenE c3St).2 = some "" :=
  ⟨(C3_amended_detector_reads_original_path c3WSt ⟨["a |1"], 7⟩ none rfl rfl rfl).1
      (by decide),
   ((C3_amended_detector_reads_original_path c3St c3File none rfl rfl rfl).2.1
      (by decide) rfl).1⟩

/-- C4 counterexample: the spec scenario's three records carry the counter
values 0, 1, 0 — the start record is written before the increment, so its
count is one less than the claimed 1, 1, 0. -/
theorem C4_counterexample_start_record_count :
    c4Run.2 = [0, 1, 0] ∧ c4Run.2 ≠ [1, 1, 0] := by decide

/-- C4 amended: the scenario emits exactly three records — start carrying
count 0 (the depth excluding the scope being started), the free-text record
carrying 1, end carrying 0 — and the counter returns to 0. -/
theorem C4_amended_scenario_counts_zero_one_zero :
    linesOf c4Run.1.fs.diag =
      ["[T] foo:start... file.cpp |0", "[T] foo:halfway file.cpp |1",
       "[T] foo:end! file.cpp |0"] ∧
    c4Run.2 = [0, 1, 0] ∧ c4Run.1.count = 0 := by decide

/-- Witness for C2 at a concrete previous file whose last line is "a |2":
crash is detected and the marker precedes the new start record. -/
theorem C2_crash_parse_and_marker_once_witness :
    (detectPreviousCrash c2WSt).1 = true ∧
    linesOf (ScopeLogger.construct "f" "g" 7 "T" c2WSt).2.1.fs.diag
      = ["a |2", "## CRASH POINT ##", "[T] f:start... g |0"] := by
  have h := C2_crash_parse_and_marker_once c2WSt freshSt c2WFile ['2'] 2
    "f" "g" "T" 7 Trace.done none rfl rfl
  refine ⟨(h.2.2.1 rfl rfl).mpr (by decide), ?_⟩
  have h4 := h.2.2.2.1 rfl rfl (by decide) rfl rfl (by decide)
  rw [h4]
  decide

/-- Witness for C5 on the concrete one-scope trace. -/
theorem C5_nesting_depth_matches_counter_witness :
    (runTrace c5Tr none freshSt).1.count = 0 ∧
    ∀ c ∈ (runTrace c5Tr none freshSt).2, 0 ≤ c :=
  (C5_nesting_depth_matches_counter "a" "f" 1 "T" freshSt freshSt ⟨"a", "f", 0⟩ c5Tr).2.2
    rfl

/-- Witness for C6: the 2 MiB + 1 diagnostics file is rotated over the stale
backup, and the 5 MiB + 1 general log is rotated as well. -/
theorem C6_rotation_strict_threshold_once_witness :
    (ensureFileOpenE c6WSt).1.fs.bak = some c6WFile ∧
    (Log.ensureFileOpen c6WLog).fs.bak = some c6WLogFile :=
  ⟨(C6_rotation_strict_threshold_once c6WSt.fs c6WFile c6WSt c6WLog Trace.done
      none).2.2.1 rfl rfl rfl (by decide) rfl,
   (C6_rotation_strict_threshold_once c6WSt.fs c6WLogFile c6WSt c6WLog Trace.done
      none).2.2.2.1 rfl rfl (by decide)⟩

/-- Witness for C7 on a concrete initialized state with a backup on disk. -/
theorem C7_ensure_open_idempotent_witness :
    (ensureFileOpen c7WSt).fs.bak = c7WSt.fs.bak ∧
    (ensureFileOpen c7WSt).initialized = true :=
  (C7_ensure_open_idempotent c7WSt).2 rfl

/-- Witness for C8 on a concrete file ending in the bare marker line. -/
theorem C8_trailing_marker_line_means_no_crash_witness :
    (detectPreviousCrash c8WSt).1 = false ∧
    (ensureFileOpen c8WSt).fs.diag = c8WSt.fs.diag := by
  have h := C8_trailing_marker_line_means_no_crash c8WSt c8WFile Trace.done none
    rfl rfl rfl rfl rfl (by decide)
  exact ⟨h.1, h.2.1⟩

/-- Witness for C9 on a concrete unopenable state and a malformed count. -/
theorem C9_io_failure_drops_writes_not_counts_witness :
    (ScopeLogger.construct "f" "g" 4 "T" c9WSt).2.1.fs = c9WSt.fs ∧
    (ScopeLogger.construct "f" "g" 4 "T" c9WSt).2.1.count = c9WSt.count + 1 ∧
    (detectPreviousCrash c9WSt2).1 = false := by
  have h := C9_io_failure_drops_writes_not_counts c9WSt c9WSt2 "f" "g" "m" "T" 4
    ⟨"f", "g", 0⟩ ['x', '2'] rfl rfl rfl
  exact ⟨h.1.1, h.1.2.1, h.2 rfl (by decide) (by decide)⟩

end ULog
